import Mathlib

/-!
Verification of the VoteFlow AI campaign client against its specification.

The definitions below are a shallow embedding of the JavaScript source:
* the dashboard telemetry handler (`Dashboard.jsx`: `addLog`, `connectWebSocket`'s
  `onmessage`, `handleQuickUpload`'s CSV branch);
* the payment modal (`PaymentModal.jsx`: plan catalog, `handleFileUpload`,
  `handleProceedToPayment`, `handleVerifyPayment` and its quota update).

React `useState` state is modelled as explicit records, `localStorage` as an
explicit store record, and each event handler as a pure function from the
pre-state (plus the network responses it consumes) to the post-state together
with the list of network calls it issued.
-/

namespace VoteFlow

/-- Counters snapshot carried by telemetry `stats` payloads
(`{ total, sent, failed, progress }` in `Dashboard.jsx`). -/
structure Stats where
  total : Nat
  sent : Nat
  failed : Nat
  progress : Nat
  deriving DecidableEq, Repr

/-- One visible log entry; `id`/`timestamp` (wall clock) are omitted,
`message` and the severity tag are kept (`addLog` in `Dashboard.jsx`). -/
structure LogEntry where
  message : String
  severity : String
  deriving DecidableEq, Repr

/-- `addLog`'s update of the `logs` array:
`setLogs(prev => [...prev.slice(-50), entry])` — keep the last 50 entries of
the previous array, then append the new entry.  JS `slice(-50)` on an array of
length `n` keeps the last `min n 50` elements, i.e. drops `n - 50`. -/
def addLogRing (logs : List LogEntry) (e : LogEntry) : List LogEntry :=
  logs.drop (logs.length - 50) ++ [e]

/-- Dashboard state touched by the WebSocket message handler
(`connected`, `isRunning`, `logs`, `stats` in `Dashboard.jsx`). -/
structure DashState where
  connected : Bool
  isRunning : Bool
  logs : List LogEntry
  stats : Stats
  deriving DecidableEq, Repr

/-- Initial dashboard state (`useState` initialisers in `Dashboard.jsx`). -/
def initDash : DashState :=
  { connected := false, isRunning := false, logs := [], stats := ⟨0, 0, 0, 0⟩ }

/-- `addLog(message, type)` applied to the dashboard state. -/
def addLogState (st : DashState) (message severity : String) : DashState :=
  { st with logs := addLogRing st.logs ⟨message, severity⟩ }

/-- Telemetry events as parsed by `ws.onmessage` in `Dashboard.jsx`
(`data.type` dispatch).  A `log` event optionally carries an embedded
stats payload (`data.stats`). -/
inductive WsEvent where
  | log (message : String) (logType : String) (stats : Option Stats)
  | stats (s : Stats)
  | complete
  | error (message : String)
  | qrWaiting
  | whatsappReady
  deriving DecidableEq, Repr

/-- The `ws.onmessage` handler of `connectWebSocket` in `Dashboard.jsx`:
one telemetry event applied to the dashboard state. -/
def onMessage (st : DashState) (e : WsEvent) : DashState :=
  match e with
  | .log m t s? =>
      let st := addLogState st m t
      match s? with
      | some s => { st with stats := s }
      | none => st
  | .stats s => { st with stats := s }
  | .complete => addLogState { st with isRunning := false } "Campaign completed!" "success"
  | .error m => addLogState st m "error"
  | .qrWaiting => addLogState st "⚠️ Check browser - Scan WhatsApp QR code" "warning"
  | .whatsappReady => addLogState st "✅ WhatsApp connected!" "success"

/-- Applying a sequence of telemetry events in receipt order. -/
def runEvents (st : DashState) (es : List WsEvent) : DashState :=
  es.foldl onMessage st

/-! ## Plan catalog (`PLANS` in `PaymentModal.jsx`) -/

/-- One service tier.  `price` is the integer value obtained by the source's
`parseInt(plan.price.replace(/,/g, ''))` (the source stores a comma-formatted
string); the other fields are verbatim. -/
structure Plan where
  id : String
  name : String
  price : Int
  campaigns : Int
  maxMessages : Nat
  deriving DecidableEq, Repr

/-- The static plan catalog (`PLANS` in `PaymentModal.jsx`), display-only
fields (description, features) omitted. -/
def PLANS : List Plan :=
  [ { id := "ward", name := "Ward", price := 999, campaigns := 1, maxMessages := 500 },
    { id := "municipal", name := "Municipal", price := 2499, campaigns := 3, maxMessages := 2000 },
    { id := "assembly", name := "Assembly", price := 4999, campaigns := 5, maxMessages := 10000 } ]

/-! ## Voter contacts and CSV parsing (`handleQuickUpload` in `Dashboard.jsx`) -/

/-- A voter contact as produced by ingestion: `{ NAME, MOBILE }`. -/
structure Voter where
  NAME : String
  MOBILE : String
  deriving DecidableEq, Repr

/-- JS `String.prototype.split(sep)` for a one-character separator, on the
character list: `"a,b"` gives `["a","b"]`, `""` gives `[""]`, a trailing
separator yields a trailing empty field. -/
def splitOnChar (sep : Char) : List Char → List (List Char)
  | [] => [[]]
  | c :: rest =>
      if c = sep then [] :: splitOnChar sep rest
      else
        match splitOnChar sep rest with
        | r :: rs => (c :: r) :: rs
        | [] => [[c]]

/-- JS `String.prototype.trim()`: strip leading and trailing whitespace. -/
def trimChars (l : List Char) : List Char :=
  ((l.dropWhile Char.isWhitespace).reverse.dropWhile Char.isWhitespace).reverse

/-- Field clean-up applied to each comma-separated part:
`p.trim().replace(/"/g, '')` — trim, then delete every double quote. -/
def cleanPart (p : List Char) : List Char :=
  (trimChars p).filter (fun c => c ≠ '"')

/-- `parts[i].replace(/\D/g, '')`: keep only the (ASCII) digits. -/
def normalizePhone (p : List Char) : List Char :=
  p.filter Char.isDigit

/-- `phone.length === 10 && /^[6-9]/.test(phone)`: exactly ten characters and
the first one in the range 6–9. -/
def isLocalMobile (p : List Char) : Bool :=
  p.length == 10 &&
    (match p with
     | c :: _ => decide ('6' ≤ c) && decide (c ≤ '9')
     | [] => false)

/-- The `for (let i = 1; ...)` scan of `handleQuickUpload`'s CSV branch:
walk the fields after the name left to right and return the first one whose
digit-normalisation is a valid local mobile number. -/
def findMobile : List (List Char) → Option (List Char)
  | [] => none
  | p :: rest =>
      let phone := normalizePhone p
      if isLocalMobile phone then some phone else findMobile rest

/-- One already-split-and-cleaned CSV row: `if (parts.length >= 2)`, field 0 is
the name, the remaining fields are scanned for the first mobile number; a row
with no matching field pushes nothing. -/
def parseParts (parts : List (List Char)) : Option Voter :=
  if 2 ≤ parts.length then
    match parts with
    | name :: rest => (findMobile rest).map (fun m => ⟨⟨name⟩, ⟨m⟩⟩)
    | [] => none
  else none

/-- One raw CSV line: `line.split(',').map(p => p.trim().replace(/"/g, ''))`
followed by `parseParts`. -/
def parseCSVLine (line : List Char) : Option Voter :=
  parseParts ((splitOnChar ',' line).map cleanPart)

/-- `lines.forEach((line, index) => { if (index === 0) return; ... })`:
the first of the (already trimmed-nonempty) lines is skipped, every other
line contributes its parsed contact, if any. -/
def parseCSVLines (lines : List (List Char)) : List Voter :=
  match lines with
  | [] => []
  | _ :: rest => rest.filterMap parseCSVLine

/-- The whole CSV branch of `handleQuickUpload`:
`text.split('\n').filter(line => line.trim())` then the indexed loop. -/
def parseCSVText (text : List Char) : List Voter :=
  parseCSVLines ((splitOnChar '\n' text).filter (fun l => !(trimChars l).isEmpty))

/-! ## Payment reference shape check (`handleVerifyPayment` in `PaymentModal.jsx`) -/

/-- The Razorpay payment-id test `/^pay_[a-zA-Z0-9]{10,30}$/.test(paymentId)`,
on the string's character list: the literal prefix `pay_`, then between 10 and
30 ASCII alphanumeric characters, and nothing else. -/
def paymentIdPattern (l : List Char) : Bool :=
  (['p', 'a', 'y', '_'].isPrefixOf l) &&
    (let rest := l.drop 4
     decide (10 ≤ rest.length) && decide (rest.length ≤ 30) && rest.all Char.isAlphanum)

/-- Modelled from the spec's words for comparison with `paymentIdPattern`
(the refinement side of claim C4): the reference "consists of the fixed prefix
`pay_` followed by 10–30 alphanumeric characters". -/
def SpecPaymentShape (l : List Char) : Prop :=
  ∃ t : List Char,
    l = ['p', 'a', 'y', '_'] ++ t ∧ 10 ≤ t.length ∧ t.length ≤ 30 ∧
      ∀ c ∈ t, c.isAlphanum = true

/-! ## Quota record and its update (`handleVerifyPayment` in `PaymentModal.jsx`) -/

/-- The persisted `voteflow_user_campaigns` record.  `planId` is an `Option`
because the fallback object `{ total: 0, remaining: 0 }` carries no `planId`
(reading it yields JS `undefined`, which compares unequal to every plan id).
`purchaseDate` is the wall-clock stamp passed in explicitly. -/
structure QuotaRecord where
  planId : Option String
  planName : String
  total : Int
  remaining : Int
  purchaseDate : Int
  paymentId : String
  deriving DecidableEq, Repr

/-- The fallback record `{ total: 0, remaining: 0 }` used when nothing is
stored. -/
def emptyQuota : QuotaRecord :=
  { planId := none, planName := "", total := 0, remaining := 0,
    purchaseDate := 0, paymentId := "" }

/-- The quota update performed on the full success path of
`handleVerifyPayment`: if the stored record's plan differs from the purchased
plan, replace the record wholesale (total = plan quota, remaining = quota − 1);
otherwise `userData.remaining = Math.max(0, userData.remaining - 1)`. -/
def updateQuota (stored : Option QuotaRecord) (plan : Plan) (pid : String) (now : Int) :
    QuotaRecord :=
  let userData := stored.getD emptyQuota
  if userData.planId ≠ some plan.id then
    { planId := some plan.id, planName := plan.name, total := plan.campaigns,
      remaining := plan.campaigns - 1, purchaseDate := now, paymentId := pid }
  else
    { userData with remaining := max 0 (userData.remaining - 1) }

/-! ## The payment modal handlers (`PaymentModal.jsx`) -/

/-- Outcome of a `fetch(...).then(res => res.json())` pair: either a decoded
response or the `catch` branch (network failure / bad JSON). -/
inductive FetchResult (α : Type) where
  | ok (v : α)
  | exn
  deriving DecidableEq, Repr

/-- Response of `POST /api/verify-payment`. -/
structure VerifyResp where
  verified : Bool
  message : Option String
  deriving DecidableEq, Repr

/-- Response of `POST /api/campaign/start`. -/
structure StartResp where
  success : Bool
  campaign_id : String
  detail : Option String
  deriving DecidableEq, Repr

/-- Response of `POST /api/extract-pdf` (fields the modal consumes). -/
structure ExtractResp where
  success : Bool
  voters : List Voter
  detail : Option String
  deriving DecidableEq, Repr

/-- Network calls a handler can issue, in issue order. -/
inductive ApiCall where
  | extractPdf (fileName : String)
  | verifyPayment (paymentId planId : String) (amount : Int)
  | startCampaign (planId : String) (maxMessages : Nat) (paymentId : Option String)
  deriving DecidableEq, Repr

/-- Payment-modal component state touched by the modelled handlers
(`useState` slots of `PaymentModal.jsx`; `launched` stands for the final
`onClose(); navigate('/dashboard', ...)` hand-off). -/
structure ModalState where
  step : Nat
  selectedPlan : Plan
  votersFile : Option String
  extractedVoters : List Voter
  isExtracting : Bool
  isProcessing : Bool
  error : String
  paymentId : String
  launched : Bool
  deriving DecidableEq, Repr

/-- The `localStorage` slots the modal writes. -/
structure Storage where
  userCampaigns : Option QuotaRecord
  pendingCampaign : Bool
  paidCampaign : Option String
  deriving DecidableEq, Repr

/-- Truncation step of `handleFileUpload`'s success branch
(`PaymentModal.jsx`): `voters = data.data.voters.slice(0, maxVoters)`, and a
plan-limit notice when the extracted list was longer.  Returns the truncated
list and the notices raised (the source raises at most the one `setError`). -/
def applyExtractSuccess (plan : Plan) (extracted : List Voter) :
    List Voter × List String :=
  let maxVoters := plan.maxMessages
  let voters := extracted.take maxVoters
  let notices :=
    if maxVoters < extracted.length then
      ["Plan limit: Only first " ++ toString maxVoters ++ " voters loaded"]
    else []
  (voters, notices)

/-- `file.name.toLowerCase().endsWith('.pdf')`, on the character list:
lower-case every character, then test the `.pdf` suffix. -/
def fileNameIsPdf (fileName : String) : Bool :=
  ".pdf".toList.isSuffixOf (fileName.toList.map Char.toLower)

/-- `handleFileUpload` of `PaymentModal.jsx`: extension and size validation,
then dispatch to the extraction service, truncation to the plan ceiling and
advance to the message step.  Returns post-state and issued calls. -/
def handleFileUpload (st : ModalState) (fileName : String) (fileSize : Nat)
    (net : FetchResult ExtractResp) : ModalState × List ApiCall :=
  if ¬ fileNameIsPdf fileName then
    ({ st with error := "Only PDF files are allowed" }, [])
  else if 10 * 1024 * 1024 < fileSize then
    ({ st with error := "File size must be less than 10MB" }, [])
  else
    let st := { st with votersFile := some fileName, isExtracting := true, error := "" }
    match net with
    | .exn =>
        ({ st with error := "Server error. Make sure backend is running.",
                   isExtracting := false }, [.extractPdf fileName])
    | .ok data =>
        if data.success then
          let res := applyExtractSuccess st.selectedPlan data.voters
          ({ st with error := res.2.headD st.error, extractedVoters := res.1,
                     step := 2, isExtracting := false }, [.extractPdf fileName])
        else
          ({ st with error := data.detail.getD "Failed to extract voters",
                     isExtracting := false }, [.extractPdf fileName])

/-- `handleVerifyPayment` of `PaymentModal.jsx`: local shape check, payment
verification, campaign start, quota update and hand-off.  The two network
round-trips it may perform are passed in as oracles; the returned call list
records which were actually issued, in order. -/
def handleVerifyPayment (st : ModalState) (store : Storage) (now : Int)
    (verifyNet : FetchResult VerifyResp) (startNet : FetchResult StartResp) :
    ModalState × Storage × List ApiCall :=
  let st := { st with isProcessing := true, error := "" }
  if ¬ paymentIdPattern st.paymentId.toList then
    ({ st with
        error := "Invalid Payment ID format. It should look like: pay_xxxxxxxxxxxxxxx",
        isProcessing := false }, store, [])
  else
    let verifyCall := ApiCall.verifyPayment st.paymentId st.selectedPlan.id st.selectedPlan.price
    match verifyNet with
    | .exn =>
        ({ st with error := "Failed to verify payment. Please try again.",
                   isProcessing := false }, store, [verifyCall])
    | .ok verifyData =>
        if ¬ verifyData.verified then
          ({ st with
              error := verifyData.message.getD
                "Payment verification failed. Please check your Payment ID.",
              isProcessing := false }, store, [verifyCall])
        else
          let startCall := ApiCall.startCampaign st.selectedPlan.id
            st.selectedPlan.maxMessages (some st.paymentId)
          match startNet with
          | .exn =>
              ({ st with error := "Failed to verify payment. Please try again.",
                         isProcessing := false }, store, [verifyCall, startCall])
          | .ok data =>
              if data.success then
                let store := { store with
                  pendingCampaign := false,
                  userCampaigns :=
                    some (updateQuota store.userCampaigns st.selectedPlan st.paymentId now),
                  paidCampaign := some data.campaign_id }
                ({ st with launched := true, isProcessing := false }, store,
                  [verifyCall, startCall])
              else
                ({ st with error := data.detail.getD "Failed to start campaign",
                           isProcessing := false }, store, [verifyCall, startCall])

/-! ## The wizard's step machine (`PaymentModal.jsx` step handlers) -/

/-- Wizard states.  `planSelection`/`ingestion`/`composition` are steps 0–2,
`paymentPending` step 3 (payment page), `paymentVerification` step 4,
`launched` the `navigate('/dashboard')` hand-off. -/
inductive WizState where
  | planSelection
  | ingestion
  | composition
  | paymentPending
  | paymentVerification
  | launched
  deriving DecidableEq, Repr

/-- Wizard events, one per state-changing handler.  `confirm startOk` is
`handleProceedToPayment`; for a bypass (dev) operator it runs
`handleDevStartCampaign`, whose start request succeeds iff `startOk`.
`verifyOutcome ok` collapses `handleVerifyPayment`'s verification + start
round-trips: `ok` iff both succeeded. -/
inductive WizEvent where
  | choosePlan
  | ingestOk
  | ingestFail
  | backToPlan
  | confirm (startOk : Bool)
  | dispatchPay
  | verifyOutcome (ok : Bool)
  | backToPay
  deriving DecidableEq, Repr

/-- The wizard step-transition function extracted from the `setStep` calls of
`PaymentModal.jsx`, together with the start-campaign calls the transition
itself issues (`handleDevStartCampaign` fires `POST /api/campaign/start`
immediately on a bypass confirm). -/
def wizardNext (bypass : Bool) (s : WizState) (e : WizEvent) : WizState × List ApiCall :=
  match s, e with
  | .planSelection, .choosePlan => (.ingestion, [])
  | .ingestion, .ingestOk => (.composition, [])
  | .ingestion, .ingestFail => (.ingestion, [])
  | .ingestion, .backToPlan => (.planSelection, [])
  | .composition, .confirm startOk =>
      if bypass then
        ((if startOk then .launched else .composition),
          [.startCampaign "dev" 999999 none])
      else (.paymentPending, [])
  | .paymentPending, .dispatchPay => (.paymentVerification, [])
  | .paymentVerification, .verifyOutcome ok =>
      ((if ok then .launched else .paymentVerification), [])
  | .paymentVerification, .backToPay => (.paymentPending, [])
  | s, _ => (s, [])

/-! ## Theorems -/

/-- Key lemma for the bounded log: folding `addLogRing` from the empty log
over any entry sequence yields exactly the last `min length 51` entries, i.e.
the suffix obtained by dropping all but 51. -/
lemma foldl_addLogRing_eq_drop (entries : List LogEntry) :
    entries.foldl addLogRing [] = entries.drop (entries.length - 51) := by
  induction entries using List.reverseRecOn with
  | nil => rfl
  | append_singleton l e ih =>
      rw [List.foldl_append, List.foldl_cons, List.foldl_nil, ih]
      unfold addLogRing
      rw [List.length_drop, List.drop_drop, List.length_append, List.length_cons,
        List.length_nil, List.drop_append_of_le_length (by omega)]
      congr 2
      omega

/-- C1 (amended): folding any sequence of log events into the initially empty
visible log leaves at most 51 entries, and the result is exactly the suffix of
the most recent 51 events in insertion (oldest-first) order; with 60 events the
drop index is 9, so the most recent 51 remain. -/
theorem c1_log_ring_bounded (entries : List LogEntry) :
    (entries.foldl addLogRing []).length ≤ 51 ∧
      entries.foldl addLogRing [] = entries.drop (entries.length - 51) := by
  refine ⟨?_, foldl_addLogRing_eq_drop entries⟩
  rw [foldl_addLogRing_eq_drop, List.length_drop]
  omega

set_option maxRecDepth 8192

/-- C1 counterexample: appending 60 log events to the initially empty log
leaves 51 entries, not 50 — `prev.slice(-50)` keeps 50 entries *before* the
new one is appended, so the capacity bound of the claim is exceeded. -/
theorem c1_counterexample :
    50 < ((List.replicate 60 ({ message := "e", severity := "info" } : LogEntry)).foldl
      addLogRing []).length := by
  rw [foldl_addLogRing_eq_drop, List.length_drop, List.length_replicate]
  omega

/-- C2 (amended): a `complete` event sets the campaign-running indicator to
false and leaves the connection state unchanged; a fatal `error` event leaves
the running indicator unchanged (it only appends a log entry) and also leaves
the connection state unchanged. -/
theorem c2_terminal_events (st : DashState) (m : String) :
    (onMessage st .complete).isRunning = false ∧
    (onMessage st .complete).connected = st.connected ∧
    (onMessage st (.error m)).isRunning = st.isRunning ∧
    (onMessage st (.error m)).connected = st.connected :=
  ⟨rfl, rfl, rfl, rfl⟩

/-- C2 counterexample: with a campaign in flight, processing a fatal `error`
event leaves the running indicator `true` — the handler only logs the message
and never clears `isRunning`, contradicting the claim that an `error` event
stops treating the campaign as in-flight. -/
theorem c2_counterexample :
    (onMessage { initDash with isRunning := true } (.error "send failed")).isRunning
      = true := rfl

/-- C8 (amended): delivering `[stats(1/10), log "A", stats(2/10)]` in receipt
order leaves counters 2/10 and exactly the one log entry "A"; a `log` event
with an embedded stats payload applies the log append and the counters
replacement in one atomic step; and there exists a different delivery order of
the same three events (stats(2/10) first) whose final state differs. -/
theorem c8_ordering :
    runEvents initDash
        [.stats ⟨10, 1, 0, 10⟩, .log "A" "info" none, .stats ⟨10, 2, 0, 20⟩]
      = { connected := false, isRunning := false, logs := [⟨"A", "info"⟩],
          stats := ⟨10, 2, 0, 20⟩ } ∧
    (∀ (st : DashState) (m t : String) (s : Stats),
        onMessage st (.log m t (some s))
          = { st with logs := addLogRing st.logs ⟨m, t⟩, stats := s }) ∧
    runEvents initDash
        [.stats ⟨10, 2, 0, 20⟩, .log "A" "info" none, .stats ⟨10, 1, 0, 10⟩]
      ≠ runEvents initDash
        [.stats ⟨10, 1, 0, 10⟩, .log "A" "info" none, .stats ⟨10, 2, 0, 20⟩] :=
  ⟨by decide, fun _ _ _ _ => rfl, by decide⟩

/-- C3: on a successful verification, a stored record whose plan differs from
the purchased plan is replaced wholesale (total = plan quota, remaining =
quota − 1); a matching record has `remainingCampaigns` decremented with a
floor of zero, so it never goes negative — in particular `remaining : 2`
becomes `1` and `remaining : 0` stays `0` for the municipal plan. -/
theorem c3_quota_update (stored : Option QuotaRecord) (plan : Plan) (pid : String) (now : Int) :
    ((stored.getD emptyQuota).planId ≠ some plan.id →
      updateQuota stored plan pid now =
        { planId := some plan.id, planName := plan.name, total := plan.campaigns,
          remaining := plan.campaigns - 1, purchaseDate := now, paymentId := pid }) ∧
    ((stored.getD emptyQuota).planId = some plan.id →
      updateQuota stored plan pid now =
        { stored.getD emptyQuota with
            remaining := max 0 ((stored.getD emptyQuota).remaining - 1) } ∧
      0 ≤ (updateQuota stored plan pid now).remaining) ∧
    (updateQuota
        (some { planId := some "municipal", planName := "Municipal", total := 3,
                remaining := 2, purchaseDate := 0, paymentId := "pay_old" })
        { id := "municipal", name := "Municipal", price := 2499, campaigns := 3,
          maxMessages := 2000 } "pay_new" 1).remaining = 1 ∧
    (updateQuota
        (some { planId := some "municipal", planName := "Municipal", total := 3,
                remaining := 0, purchaseDate := 0, paymentId := "pay_old" })
        { id := "municipal", name := "Municipal", price := 2499, campaigns := 3,
          maxMessages := 2000 } "pay_new" 1).remaining = 0 := by
  refine ⟨fun h => ?_, fun h => ⟨?_, ?_⟩, by decide, by decide⟩
  · simp only [updateQuota, if_pos h]
  · simp [updateQuota, h]
  · simp [updateQuota, h, le_max_left]

/-- C3 witness: instances of both branches — a fresh (absent) record is
replaced wholesale for the ward plan, and the two municipal decrement
facts. -/
theorem c3_quota_update_witness :
    updateQuota none
        { id := "ward", name := "Ward", price := 999, campaigns := 1, maxMessages := 500 }
        "pay_abc" 7
      = { planId := some "ward", planName := "Ward", total := 1, remaining := 0,
          purchaseDate := 7, paymentId := "pay_abc" } ∧
    (updateQuota
        (some { planId := some "municipal", planName := "Municipal", total := 3,
                remaining := 2, purchaseDate := 0, paymentId := "pay_old" })
        { id := "municipal", name := "Municipal", price := 2499, campaigns := 3,
          maxMessages := 2000 } "pay_new" 1).remaining = 1 :=
  ⟨(c3_quota_update none
      { id := "ward", name := "Ward", price := 999, campaigns := 1, maxMessages := 500 }
      "pay_abc" 7).1 (by decide),
    (c3_quota_update none
      { id := "ward", name := "Ward", price := 999, campaigns := 1, maxMessages := 500 }
      "pay_abc" 7).2.2.1⟩

/-- C4: the local payment-reference check passes exactly on the fixed prefix
`pay_` followed by 10–30 alphanumeric characters — `pay_ABC123xyz9` passes,
`pay_123` and `xyz_ABC123xyz9` fail — and when it fails `handleVerifyPayment`
issues no network call, shows the inline format error and leaves the rest of
the state and the stored records unchanged. -/
theorem c4_payment_shape (s : String) (st : ModalState) (store : Storage) (now : Int)
    (vn : FetchResult VerifyResp) (sn : FetchResult StartResp) :
    (paymentIdPattern s.toList = true ↔ SpecPaymentShape s.toList) ∧
    paymentIdPattern "pay_ABC123xyz9".toList = true ∧
    paymentIdPattern "pay_123".toList = false ∧
    paymentIdPattern "xyz_ABC123xyz9".toList = false ∧
    (paymentIdPattern st.paymentId.toList = false →
      handleVerifyPayment st store now vn sn =
        ({ st with
            error := "Invalid Payment ID format. It should look like: pay_xxxxxxxxxxxxxxx",
            isProcessing := false }, store, [])) := by
  refine ⟨⟨fun h => ?_, fun h => ?_⟩, by decide, by decide, by decide, fun h => ?_⟩
  · simp only [paymentIdPattern, Bool.and_eq_true] at h
    obtain ⟨hpre, ⟨h10, h30⟩, hall⟩ := h
    obtain ⟨t, ht⟩ := List.isPrefixOf_iff_prefix.1 hpre
    have hdrop : s.toList.drop 4 = t := by rw [← ht]; exact List.drop_left' rfl
    rw [hdrop] at h10 h30 hall
    exact ⟨t, ht.symm, of_decide_eq_true h10, of_decide_eq_true h30,
      fun c hc => List.all_eq_true.1 hall c hc⟩
  · obtain ⟨t, ht, h10, h30, hall⟩ := h
    have hdrop : s.toList.drop 4 = t := by rw [ht]; exact List.drop_left' rfl
    simp only [paymentIdPattern, Bool.and_eq_true, hdrop]
    exact ⟨List.isPrefixOf_iff_prefix.2 ⟨t, ht.symm⟩,
      ⟨decide_eq_true h10, decide_eq_true h30⟩, List.all_eq_true.2 hall⟩
  · have h' : paymentIdPattern st.paymentId.data = false := h
    simp [handleVerifyPayment, h']

/-- C4 witness: the three concrete shape checks, and the no-call rejection of
`handleVerifyPayment` at a concrete state whose reference is `pay_123`. -/
theorem c4_payment_shape_witness :
    paymentIdPattern "pay_ABC123xyz9".toList = true ∧
    (handleVerifyPayment
        { step := 4,
          selectedPlan := { id := "ward", name := "Ward", price := 999, campaigns := 1,
                            maxMessages := 500 },
          votersFile := none, extractedVoters := [], isExtracting := false,
          isProcessing := false, error := "", paymentId := "pay_123", launched := false }
        { userCampaigns := none, pendingCampaign := true, paidCampaign := none } 0
        (.ok { verified := true, message := none })
        (.ok { success := true, campaign_id := "c1", detail := none })).2.2 = [] := by
  refine ⟨(c4_payment_shape "pay_ABC123xyz9"
      { step := 4,
        selectedPlan := { id := "ward", name := "Ward", price := 999, campaigns := 1,
                          maxMessages := 500 },
        votersFile := none, extractedVoters := [], isExtracting := false,
        isProcessing := false, error := "", paymentId := "pay_123", launched := false }
      { userCampaigns := none, pendingCampaign := true, paidCampaign := none } 0
      (.ok { verified := true, message := none })
      (.ok { success := true, campaign_id := "c1", detail := none })).2.1, ?_⟩
  rw [(c4_payment_shape "pay_ABC123xyz9"
      { step := 4,
        selectedPlan := { id := "ward", name := "Ward", price := 999, campaigns := 1,
                          maxMessages := 500 },
        votersFile := none, extractedVoters := [], isExtracting := false,
        isProcessing := false, error := "", paymentId := "pay_123", launched := false }
      { userCampaigns := none, pendingCampaign := true, paidCampaign := none } 0
      (.ok { verified := true, message := none })
      (.ok { success := true, campaign_id := "c1", detail := none })).2.2.2.2 (by decide)]

/-- C5: the first CSV line never produces a contact; every other line takes
field 0 as the name and scans the remaining fields left-to-right for the first
token normalising to exactly 10 digits beginning 6–9; lines with no such token
contribute nothing; `"Asha,9876543210"` yields `{Asha, 9876543210}` and
`"Bala,12345"` yields no contact. -/
theorem c5_csv_parsing :
    (∀ (hd : List Char) (tl : List (List Char)),
        parseCSVLines (hd :: tl) = tl.filterMap parseCSVLine) ∧
    (∀ (name : List Char) (rest : List (List Char)) (v : Voter),
        parseParts (name :: rest) = some v →
          v.NAME = ⟨name⟩ ∧ findMobile rest = some v.MOBILE.data) ∧
    (∀ parts : List (List Char),
        findMobile (parts.drop 1) = none → parseParts parts = none) ∧
    (∀ (p : List Char) (rest : List (List Char)),
        (isLocalMobile (normalizePhone p) = true →
          findMobile (p :: rest) = some (normalizePhone p)) ∧
        (isLocalMobile (normalizePhone p) = false →
          findMobile (p :: rest) = findMobile rest)) ∧
    parseCSVLine "Asha,9876543210".toList = some ⟨"Asha", "9876543210"⟩ ∧
    parseCSVLine "Bala,12345".toList = none := by
  refine ⟨fun hd tl => rfl, fun name rest v h => ?_, fun parts h => ?_,
    fun p rest => ⟨fun h => by simp [findMobile, h], fun h => by simp [findMobile, h]⟩,
    by decide, by decide⟩
  · simp only [parseParts] at h
    split at h
    · obtain ⟨m, hm, hv⟩ := Option.map_eq_some'.1 h
      subst hv
      exact ⟨rfl, hm⟩
    · cases h
  · cases parts with
    | nil => rfl
    | cons name rest =>
        have h' : findMobile rest = none := h
        simp [parseParts, h']

/-- C5 witness: the general row facts applied at the two concrete rows — the
`Asha` row parses to the contact and the phone scan finds `9876543210`; the
`Bala` row, whose field scan finds nothing, produces no contact. -/
theorem c5_csv_parsing_witness :
    (({ NAME := "Asha", MOBILE := "9876543210" } : Voter).NAME = "Asha" ∧
      findMobile ["9876543210".toList] = some
        ({ NAME := "Asha", MOBILE := "9876543210" } : Voter).MOBILE.data) ∧
    parseParts ["Bala".toList, "12345".toList] = none :=
  ⟨c5_csv_parsing.2.1 "Asha".toList ["9876543210".toList]
      { NAME := "Asha", MOBILE := "9876543210" } (by decide),
    c5_csv_parsing.2.2.1 ["Bala".toList, "12345".toList] (by decide)⟩

/-- C6: the ingested list after a successful extraction has length
`min (length extracted) plan.maxMessages`; when truncation occurred exactly
one plan-limit notice is raised, when it did not occur no notice is raised;
and the ingestion still succeeds — `handleFileUpload` stores the truncated
list and advances to the message step. -/
theorem c6_truncation (plan : Plan) (extracted : List Voter) (st : ModalState)
    (name : String) (size : Nat) (data : ExtractResp) :
    (applyExtractSuccess plan extracted).1.length
      = min extracted.length plan.maxMessages ∧
    (plan.maxMessages < extracted.length →
      (applyExtractSuccess plan extracted).2.length = 1) ∧
    (extracted.length ≤ plan.maxMessages →
      (applyExtractSuccess plan extracted).2 = []) ∧
    (fileNameIsPdf name = true → size ≤ 10 * 1024 * 1024 → data.success = true →
      (handleFileUpload st name size (.ok data)).1.step = 2 ∧
      (handleFileUpload st name size (.ok data)).1.extractedVoters
        = data.voters.take st.selectedPlan.maxMessages) := by
  refine ⟨?_, fun h => ?_, fun h => ?_, fun hn hs hd => ?_⟩
  · simp [applyExtractSuccess, Nat.min_comm]
  · simp [applyExtractSuccess, h]
  · simp [applyExtractSuccess, Nat.not_lt.2 h]
  · constructor <;>
      simp [handleFileUpload, hn, Nat.not_lt.2 hs, hd, applyExtractSuccess]

/-- C6 witness: a plan with ceiling 2 and three extracted voters — the stored
list is the first two voters (length `min 3 2`), one notice is raised, and the
upload handler still advances to step 2 with the truncated list. -/
theorem c6_truncation_witness :
    (applyExtractSuccess
        { id := "ward", name := "Ward", price := 999, campaigns := 1, maxMessages := 2 }
        [⟨"a", "9876543210"⟩, ⟨"b", "9876543211"⟩, ⟨"c", "9876543212"⟩]).2.length = 1 ∧
    (handleFileUpload
        { step := 1,
          selectedPlan := { id := "ward", name := "Ward", price := 999, campaigns := 1,
                            maxMessages := 2 },
          votersFile := none, extractedVoters := [], isExtracting := false,
          isProcessing := false, error := "", paymentId := "", launched := false }
        "voters.pdf" 100
        (.ok { success := true,
               voters := [⟨"a", "9876543210"⟩, ⟨"b", "9876543211"⟩, ⟨"c", "9876543212"⟩],
               detail := none })).1.step = 2 :=
  ⟨(c6_truncation
      { id := "ward", name := "Ward", price := 999, campaigns := 1, maxMessages := 2 }
      [⟨"a", "9876543210"⟩, ⟨"b", "9876543211"⟩, ⟨"c", "9876543212"⟩]
      { step := 1,
        selectedPlan := { id := "ward", name := "Ward", price := 999, campaigns := 1,
                          maxMessages := 2 },
        votersFile := none, extractedVoters := [], isExtracting := false,
        isProcessing := false, error := "", paymentId := "", launched := false }
      "voters.pdf" 100
      { success := true,
        voters := [⟨"a", "9876543210"⟩, ⟨"b", "9876543211"⟩, ⟨"c", "9876543212"⟩],
        detail := none }).2.1 (by decide),
    ((c6_truncation
      { id := "ward", name := "Ward", price := 999, campaigns := 1, maxMessages := 2 }
      [⟨"a", "9876543210"⟩, ⟨"b", "9876543211"⟩, ⟨"c", "9876543212"⟩]
      { step := 1,
        selectedPlan := { id := "ward", name := "Ward", price := 999, campaigns := 1,
                          maxMessages := 2 },
        votersFile := none, extractedVoters := [], isExtracting := false,
        isProcessing := false, error := "", paymentId := "", launched := false }
      "voters.pdf" 100
      { success := true,
        voters := [⟨"a", "9876543210"⟩, ⟨"b", "9876543211"⟩, ⟨"c", "9876543212"⟩],
        detail := none }).2.2.2 (by decide) (by decide) (by decide)).1⟩

/-- C7: on the scan path, a file whose (lower-cased) name does not end in
`.pdf` is rejected with the unsupported-format error, and a `.pdf` file larger
than 10 MB with the too-large error; in both cases no call is issued and only
the error slot of the state changes. -/
theorem c7_scan_validation (st : ModalState) (name : String) (size : Nat)
    (net : FetchResult ExtractResp) :
    (fileNameIsPdf name = false →
      handleFileUpload st name size net
        = ({ st with error := "Only PDF files are allowed" }, [])) ∧
    (fileNameIsPdf name = true → 10 * 1024 * 1024 < size →
      handleFileUpload st name size net
        = ({ st with error := "File size must be less than 10MB" }, [])) := by
  refine ⟨fun h => ?_, fun h hs => ?_⟩
  · simp [handleFileUpload, h]
  · simp [handleFileUpload, h, hs]

/-- C7 witness: a `.txt` file is rejected as unsupported and an oversized
`.pdf` as too large, both with no network call, at a concrete state. -/
theorem c7_scan_validation_witness :
    handleFileUpload
        { step := 1,
          selectedPlan := { id := "ward", name := "Ward", price := 999, campaigns := 1,
                            maxMessages := 500 },
          votersFile := none, extractedVoters := [], isExtracting := false,
          isProcessing := false, error := "", paymentId := "", launched := false }
        "voters.txt" 100 .exn
      = ({ step := 1,
           selectedPlan := { id := "ward", name := "Ward", price := 999, campaigns := 1,
                             maxMessages := 500 },
           votersFile := none, extractedVoters := [], isExtracting := false,
           isProcessing := false, error := "Only PDF files are allowed", paymentId := "",
           launched := false }, []) ∧
    handleFileUpload
        { step := 1,
          selectedPlan := { id := "ward", name := "Ward", price := 999, campaigns := 1,
                            maxMessages := 500 },
          votersFile := none, extractedVoters := [], isExtracting := false,
          isProcessing := false, error := "", paymentId := "", launched := false }
        "big.PDF" 10485761 .exn
      = ({ step := 1,
           selectedPlan := { id := "ward", name := "Ward", price := 999, campaigns := 1,
                             maxMessages := 500 },
           votersFile := none, extractedVoters := [], isExtracting := false,
           isProcessing := false, error := "File size must be less than 10MB", paymentId := "",
           launched := false }, []) :=
  ⟨(c7_scan_validation
      { step := 1,
        selectedPlan := { id := "ward", name := "Ward", price := 999, campaigns := 1,
                          maxMessages := 500 },
        votersFile := none, extractedVoters := [], isExtracting := false,
        isProcessing := false, error := "", paymentId := "", launched := false }
      "voters.txt" 100 .exn).1 (by decide),
    (c7_scan_validation
      { step := 1,
        selectedPlan := { id := "ward", name := "Ward", price := 999, campaigns := 1,
                          maxMessages := 500 },
        votersFile := none, extractedVoters := [], isExtracting := false,
        isProcessing := false, error := "", paymentId := "", launched := false }
      "big.PDF" 10485761 .exn).2 (by decide) (by decide)⟩

/-- C9 (amended): from `Composition`, a bypass confirm issues the start
request immediately and reaches `Launched` when the start request succeeds
(staying at `Composition` with the error shown when it fails); a non-bypass
confirm advances to `PaymentPending` without issuing any call; and a
non-bypass wizard never transitions into `Launched` except from
`PaymentVerification`. -/
theorem c9_wizard_confirm (startOk : Bool) :
    wizardNext true .composition (.confirm startOk)
      = ((if startOk then .launched else .composition),
          [.startCampaign "dev" 999999 none]) ∧
    wizardNext false .composition (.confirm startOk) = (.paymentPending, []) ∧
    (∀ (s : WizState) (e : WizEvent), s ≠ .launched →
        (wizardNext false s e).1 = .launched → s = .paymentVerification) := by
  refine ⟨rfl, rfl, fun s e hs h => ?_⟩
  cases s <;> cases e <;> simp_all [wizardNext]

/-- C9 witness: a bypass confirm whose start request succeeds lands in
`Launched` with the start call issued, and the only-through-verification fact
instantiated at the verification state. -/
theorem c9_wizard_confirm_witness :
    wizardNext true .composition (.confirm true)
      = (.launched, [.startCampaign "dev" 999999 none]) ∧
    WizState.paymentVerification = WizState.paymentVerification :=
  ⟨(c9_wizard_confirm true).1,
    (c9_wizard_confirm true).2.2 .paymentVerification (.verifyOutcome true)
      (by decide) rfl⟩

/-- C9 counterexample: for a bypass operator whose immediate start request
fails, confirming from `Composition` leaves the wizard at `Composition` —
neither `Launched` nor `PaymentPending` — refuting "always moves to exactly
one of two states". -/
theorem c9_counterexample :
    (wizardNext true .composition (.confirm false)).1 ≠ WizState.launched ∧
    (wizardNext true .composition (.confirm false)).1 ≠ WizState.paymentPending := by
  decide

/-- C10: the stored quota record is written only on the path where the
verification response is `verified` and the start request succeeds; a rejected
verification, a thrown verification call, a thrown start call or a failed
start response all leave the stored records untouched, while the full success
path (with a well-formed reference) stores the updated quota record. -/
theorem c10_quota_write_path (st : ModalState) (store : Storage) (now : Int)
    (vn : FetchResult VerifyResp) (sn : FetchResult StartResp) :
    (paymentIdPattern st.paymentId.toList = false →
      (handleVerifyPayment st store now vn sn).2.1 = store) ∧
    (vn = .exn → (handleVerifyPayment st store now vn sn).2.1 = store) ∧
    (∀ v, vn = .ok v → v.verified = false →
      (handleVerifyPayment st store now vn sn).2.1 = store) ∧
    (∀ v, vn = .ok v → v.verified = true → sn = .exn →
      (handleVerifyPayment st store now vn sn).2.1 = store) ∧
    (∀ v d, vn = .ok v → v.verified = true → sn = .ok d → d.success = false →
      (handleVerifyPayment st store now vn sn).2.1 = store) ∧
    (∀ v d, paymentIdPattern st.paymentId.toList = true → vn = .ok v →
      v.verified = true → sn = .ok d → d.success = true →
      (handleVerifyPayment st store now vn sn).2.1.userCampaigns
        = some (updateQuota store.userCampaigns st.selectedPlan st.paymentId now)) := by
  have heq : st.paymentId.toList = st.paymentId.data := rfl
  refine ⟨fun h => ?_, fun h => ?_, fun v hv hvf => ?_, fun v hv hvt hs => ?_,
    fun v d hv hvt hs hd => ?_, fun v d hp hv hvt hs hd => ?_⟩
  · rw [heq] at h
    simp [handleVerifyPayment, h]
  · subst h
    by_cases hp : paymentIdPattern st.paymentId.data = true <;>
      simp [handleVerifyPayment, hp]
  · subst hv
    by_cases hp : paymentIdPattern st.paymentId.data = true <;>
      simp [handleVerifyPayment, hp, hvf]
  · subst hv; subst hs
    by_cases hp : paymentIdPattern st.paymentId.data = true <;>
      simp [handleVerifyPayment, hp, hvt]
  · subst hv; subst hs
    by_cases hp : paymentIdPattern st.paymentId.data = true <;>
      simp [handleVerifyPayment, hp, hvt, hd]
  · subst hv; subst hs
    rw [heq] at hp
    simp [handleVerifyPayment, hp, hvt, hd]

/-- C10 witness: at a concrete state, a rejected verification leaves the
stored records untouched, and the full success path stores the updated quota
record. -/
theorem c10_quota_write_path_witness :
    (handleVerifyPayment
        { step := 4,
          selectedPlan := { id := "municipal", name := "Municipal", price := 2499,
                            campaigns := 3, maxMessages := 2000 },
          votersFile := none, extractedVoters := [], isExtracting := false,
          isProcessing := false, error := "", paymentId := "pay_abcdefghij",
          launched := false }
        { userCampaigns := none, pendingCampaign := true, paidCampaign := none } 0
        (.ok { verified := false, message := some "no such payment" })
        (.ok { success := true, campaign_id := "c1", detail := none })).2.1
      = { userCampaigns := none, pendingCampaign := true, paidCampaign := none } ∧
    (handleVerifyPayment
        { step := 4,
          selectedPlan := { id := "municipal", name := "Municipal", price := 2499,
                            campaigns := 3, maxMessages := 2000 },
          votersFile := none, extractedVoters := [], isExtracting := false,
          isProcessing := false, error := "", paymentId := "pay_abcdefghij",
          launched := false }
        { userCampaigns := none, pendingCampaign := true, paidCampaign := none } 0
        (.ok { verified := true, message := none })
        (.ok { success := true, campaign_id := "c1", detail := none })).2.1.userCampaigns
      = some (updateQuota none
          { id := "municipal", name := "Municipal", price := 2499, campaigns := 3,
            maxMessages := 2000 } "pay_abcdefghij" 0) :=
  ⟨(c10_quota_write_path
      { step := 4,
        selectedPlan := { id := "municipal", name := "Municipal", price := 2499,
                          campaigns := 3, maxMessages := 2000 },
        votersFile := none, extractedVoters := [], isExtracting := false,
        isProcessing := false, error := "", paymentId := "pay_abcdefghij",
        launched := false }
      { userCampaigns := none, pendingCampaign := true, paidCampaign := none } 0
      (.ok { verified := false, message := some "no such payment" })
      (.ok { success := true, campaign_id := "c1", detail := none })).2.2.1
      { verified := false, message := some "no such payment" } rfl rfl,
    (c10_quota_write_path
      { step := 4,
        selectedPlan := { id := "municipal", name := "Municipal", price := 2499,
                          campaigns := 3, maxMessages := 2000 },
        votersFile := none, extractedVoters := [], isExtracting := false,
        isProcessing := false, error := "", paymentId := "pay_abcdefghij",
        launched := false }
      { userCampaigns := none, pendingCampaign := true, paidCampaign := none } 0
      (.ok { verified := true, message := none })
      (.ok { success := true, campaign_id := "c1", detail := none })).2.2.2.2.2
      { verified := true, message := none }
      { success := true, campaign_id := "c1", detail := none }
      (by decide) rfl rfl rfl rfl⟩

/-- C8 counterexample: swapping the leading `stats(1/10)` with the `log "A"`
event is a genuinely different delivery order of the same three events, yet it
produces the *same* final state — so reordering does not always change the
observed final state, refuting the claim's universal order-sensitivity. -/
theorem c8_counterexample :
    runEvents initDash
        [.log "A" "info" none, .stats ⟨10, 1, 0, 10⟩, .stats ⟨10, 2, 0, 20⟩]
      = runEvents initDash
        [.stats ⟨10, 1, 0, 10⟩, .log "A" "info" none, .stats ⟨10, 2, 0, 20⟩] := by
  decide

end VoteFlow
